import Mathlib

/-!
Verification development for the "wapp" repository: a shallow embedding of
the CRUD-endpoint resolution logic of `src/wapp/core.py` (Flask variant),
the directive handling and schema derivation of `src/wapp/core/asgi.py`
(FastAPI variant), and the request handlers of `src/wapp/endpoint_base.py`
and `src/wapp/generic_endpoints.py`.

Machine strings are modelled as Lean `String`s; the Python string methods
used by the source (`str.replace`, `str.rstrip`, `str.startswith`, slicing,
`str.format`) are re-implemented over `List Char` so that every definition
is executable and kernel-reducible.
-/

/-! ## Python string primitives -/

/-- Python `str.replace(pat, rep)`: left-to-right, non-overlapping.
Fuel-based structural recursion (fuel = length of the subject) so the
kernel can evaluate it. -/
def replaceFuel (pat rep : List Char) : Nat → List Char → List Char
  | 0, l => l
  | _, [] => []
  | fuel + 1, x :: xs =>
    if pat.isPrefixOf (x :: xs) && !pat.isEmpty then
      rep ++ replaceFuel pat rep fuel ((x :: xs).drop pat.length)
    else
      x :: replaceFuel pat rep fuel xs

/-- Python `s.replace(pat, rep)`. -/
def pyReplace (s pat rep : String) : String :=
  String.mk (replaceFuel pat.data rep.data s.data.length s.data)

/-- Python `pattern.format(model_slug=slug)` for the CRUD URL templates of
`Wapp.CRUD_ACTIONS` (`src/wapp/core.py` lines 40-46), which contain the
single placeholder `{model_slug}`. -/
def pyFormatSlug (tmpl slug : String) : String :=
  pyReplace tmpl "{model_slug}" slug

/-- Python `name.startswith('_')` (`src/wapp/core.py` line 154). -/
def pyStartsUnderscore (s : String) : Bool :=
  match s.data with
  | c :: _ => c == '_'
  | [] => false

/-- Python `name[1:]` (`src/wapp/core.py` line 155). -/
def pyDropFirst (s : String) : String :=
  String.mk (s.data.drop 1)

/-- Python `s.rstrip("/")` (`src/wapp/core.py` lines 92, 100). -/
def pyRstripSlash (s : String) : String :=
  String.mk ((s.data.reverse.dropWhile (fun c => c == '/')).reverse)

/-! ## Data model of `src/wapp/core.py` -/

/-- The five canonical CRUD actions (keys of `Wapp.CRUD_ACTIONS`). -/
inductive CrudAction where
  | get
  | list
  | create
  | update
  | delete
deriving DecidableEq, Repr

/-- The lowercase action name (the Python dict key). -/
def actionStr : CrudAction → String
  | .get => "get"
  | .list => "list"
  | .create => "create"
  | .update => "update"
  | .delete => "delete"

/-- Python `action.capitalize()` as used in `_generate_crud_endpoint`. -/
def actionCap : CrudAction → String
  | .get => "Get"
  | .list => "List"
  | .create => "Create"
  | .update => "Update"
  | .delete => "Delete"

/-- `Wapp.CRUD_ACTIONS[action]['method']` (`src/wapp/core.py` lines 40-46). -/
def crudMethod : CrudAction → String
  | .get => "GET"
  | .list => "GET"
  | .create => "POST"
  | .update => "PUT"
  | .delete => "DELETE"

/-- `Wapp.CRUD_ACTIONS[action]['pattern']` (`src/wapp/core.py` lines 40-46),
still containing the `{model_slug}` placeholder. -/
def crudPatternTmpl : CrudAction → String
  | .get => "/{model_slug}/<int:id>"
  | .list => "/{model_slug}/"
  | .create => "/{model_slug}/"
  | .update => "/{model_slug}/<int:id>"
  | .delete => "/{model_slug}/<int:id>"

/-- Iteration order of `for action in cls.CRUD_ACTIONS` — Python dict
insertion order, i.e. the declaration order at lines 40-46. -/
def crudOrder : List CrudAction :=
  [.get, .list, .create, .update, .delete]

/-- An endpoint class (a `WappEndpoint` subclass): the attributes the
resolver and blueprint builder read, plus a generation tag `genId` that
gives dynamically created classes (`type(...)` calls) distinct identity. -/
structure EndpointObj where
  modName : String
  qualName : String
  method : Option String
  pattern : Option String
  metaName : Option String
  db : Option Nat
  genId : Option Nat
deriving DecidableEq, Repr

/-- The `WappModel` metadata container attached to a model class.
`slug = none` models a `WappModel` class without a `slug` attribute. -/
structure WappModelMeta where
  slug : Option String
  name : String
deriving DecidableEq, Repr

/-- A SQLAlchemy model class as the resolver sees it: its `__name__` and
its optional `WappModel` attribute. -/
structure ModelCls where
  clsName : String
  wappModel : Option WappModelMeta
deriving DecidableEq, Repr

/-- A value found inside a per-action CRUD directive dict. `vNone` models
both an explicit `None` and an absent key (`value.get(action, None)`).
All falsy non-`False` Python values behave like `vNone` in the source and
all truthy non-class values behave like `vTrue`. -/
inductive DirEntry where
  | vNone
  | vFalse
  | vTrue
  | vCls (e : EndpointObj)
deriving DecidableEq, Repr

/-- A value of an attribute of an `Endpoints` container class. -/
inductive PyVal where
  | pyNone
  | pyBool (b : Bool)
  | epCls (e : EndpointObj)
  | pyDict (m : List (CrudAction × DirEntry))
deriving DecidableEq, Repr

/-- Python truthiness of a `PyVal` (classes are truthy, `None`/`False`
are falsy, a dict is truthy iff non-empty). -/
def truthy : PyVal → Bool
  | .pyNone => false
  | .pyBool b => b
  | .epCls _ => true
  | .pyDict m => !m.isEmpty

/-- Whether a `PyVal` is a `WappEndpoint` subclass
(`isclass(view) and issubclass(view, WappEndpoint)`). -/
def isEpCls : PyVal → Bool
  | .epCls _ => true
  | _ => false

/-- A `Wapp` subclass, flattened to the attributes `get_endpoints` and the
blueprint builder read: the class `__name__`, the `Models` container
(attribute name → model class), the `Endpoints` container `__dict__`
(ordered attribute list), the class-level `_cached_endpoints` field and the
class-level `db` field. -/
structure WappNode where
  clsName : String
  models : List (String × ModelCls)
  eps : List (String × PyVal)
  cache : Option (List (String × EndpointObj))
  db : Option Nat
deriving DecidableEq, Repr

/-- The body of `Wapp.get_models` (`src/wapp/core.py` lines 124-133): keep
the attributes of the `Models` container that are classes carrying a
`WappModel` attribute. -/
def modelsMap (ms : List (String × ModelCls)) : List (String × ModelCls) :=
  ms.filter (fun p => p.2.wappModel.isSome)

/-- `Wapp.get_models` (`src/wapp/core.py` lines 124-133). -/
def get_models (n : WappNode) : List (String × ModelCls) :=
  modelsMap n.models

/-- Python dict assignment `d[k] = v`: overwrite in place if the key
exists (keeping its position), append otherwise. -/
def dictUpsert {β : Type} (d : List (String × β)) (k : String) (v : β) :
    List (String × β) :=
  if d.any (fun p => p.1 == k) then
    d.map (fun p => if p.1 == k then (k, v) else p)
  else
    d ++ [(k, v)]

/-- `Wapp._generate_crud_endpoint` (`src/wapp/core.py` lines 188-225):
dynamically creates a subclass of the generic endpoint for `action`, with
`Meta.pattern` the slug-formatted CRUD pattern, `Meta.method` the CRUD
method, and the current class-level `db` captured. `type()` names the new
class `f"{model.__name__}_{action.capitalize()}Endpoint"` and stamps it
with module `wapp.core`; `g` is the fresh identity of the new class object.
The `slug` attribute is present whenever this is reached (checked by
`get_endpoints`), so `meta.slug.getD ""` reads it. -/
def generate_crud_endpoint (dbNow : Option Nat) (model : ModelCls)
    (meta : WappModelMeta) (a : CrudAction) (g : Nat) : EndpointObj :=
  { modName := "wapp.core"
  , qualName := model.clsName ++ "_" ++ actionCap a ++ "Endpoint"
  , method := some (crudMethod a)
  , pattern := some (pyFormatSlug (crudPatternTmpl a) (meta.slug.getD ""))
  , metaName := some (meta.name ++ " " ++ actionCap a)
  , db := dbNow
  , genId := some g }

/-- The per-action loop of the dict branch of `get_endpoints`
(`src/wapp/core.py` lines 163-175). For each action, `v` is
`value.get(action, None)`; `if v is False or None` skips only when `v`
is `False` (the `or None` operand is dead); a truthy `WappEndpoint`
subclass is recorded as the override; any other truthy value generates the
default endpoint; everything else (including `None`) is skipped. Returns
the entries appended to both `result` and `to_set`, and the next fresh id. -/
def dictActions (dbNow : Option Nat) (modelName : String) (model : ModelCls)
    (meta : WappModelMeta) (m : List (CrudAction × DirEntry)) :
    List CrudAction → Nat → List (String × EndpointObj) × Nat
  | [], g => ([], g)
  | a :: rest, g =>
    match (m.lookup a).getD .vNone with
    | .vFalse => dictActions dbNow modelName model meta m rest g
    | .vCls e =>
      let (tl, g') := dictActions dbNow modelName model meta m rest g
      ((modelName ++ "_" ++ actionStr a, e) :: tl, g')
    | .vTrue =>
      let e := generate_crud_endpoint dbNow model meta a g
      let (tl, g') := dictActions dbNow modelName model meta m rest (g + 1)
      ((modelName ++ "_" ++ actionStr a, e) :: tl, g')
    | .vNone => dictActions dbNow modelName model meta m rest g

/-- The `elif value:` branch of `get_endpoints` (`src/wapp/core.py` lines
176-181): a truthy non-dict directive generates the default endpoint for
every action in `CRUD_ACTIONS` order. -/
def genActions (dbNow : Option Nat) (modelName : String) (model : ModelCls)
    (meta : WappModelMeta) :
    List CrudAction → Nat → List (String × EndpointObj) × Nat
  | [], g => ([], g)
  | a :: rest, g =>
    let e := generate_crud_endpoint dbNow model meta a g
    let (tl, g') := genActions dbNow modelName model meta rest (g + 1)
    ((modelName ++ "_" ++ actionStr a, e) :: tl, g')

/-- Processing of one `Endpoints` attribute by step 2 of `get_endpoints`
(`src/wapp/core.py` lines 153-181). Returns the `(name, endpoint)` pairs
this attribute contributes (appended to both `result` and `to_set`), or
the `ValueError` raised when the referenced model lacks a `WappModel.slug`. -/
def crudStep (dbNow : Option Nat) (models : List (String × ModelCls))
    (name : String) (value : PyVal) (g : Nat) :
    Except String (List (String × EndpointObj) × Nat) :=
  if pyStartsUnderscore name then
    let modelName := pyDropFirst name
    match models.lookup modelName with
    | none => .ok ([], g)
    | some model =>
      match model.wappModel with
      | none => .error ("Model " ++ modelName ++ " missing WappModel.slug.")
      | some meta =>
        match meta.slug with
        | none => .error ("Model " ++ modelName ++ " missing WappModel.slug.")
        | some _ =>
          match value with
          | .pyDict m => .ok (dictActions dbNow modelName model meta m crudOrder g)
          | v => if truthy v then .ok (genActions dbNow modelName model meta crudOrder g)
                 else .ok ([], g)
  else
    .ok ([], g)

/-- The step-2 loop of `get_endpoints` over the copied
`endpoints_dict.items()`, threading the growing `result` list, the
`to_set` dict and the fresh-id counter exactly as the Python loop does. -/
def crudLoop (dbNow : Option Nat) (models : List (String × ModelCls)) :
    List (String × PyVal) → List (String × EndpointObj) →
    List (String × EndpointObj) → Nat →
    Except String (List (String × EndpointObj) × List (String × EndpointObj) × Nat)
  | [], res, toSet, g => .ok (res, toSet, g)
  | (name, value) :: rest, res, toSet, g =>
    match crudStep dbNow models name value g with
    | .error m => .error m
    | .ok (entries, g') =>
      crudLoop dbNow models rest (res ++ entries)
        (entries.foldl (fun d p => dictUpsert d p.1 p.2) toSet) g'

/-- The cache-miss body of `Wapp.get_endpoints` (`src/wapp/core.py` lines
140-186): step 1 collects the explicit `WappEndpoint` subclasses of the
`Endpoints` container in declaration order; step 2 walks the CRUD
directives (underscore-named attributes); finally the `to_set` attributes
are written back onto the container (`setattr`) and the result is cached.
Returns the resolved list, the mutated class, and the next fresh id. -/
def resolve_endpoints (n : WappNode) (g : Nat) :
    Except String (List (String × EndpointObj) × WappNode × Nat) :=
  match crudLoop n.db (get_models n) n.eps
      (n.eps.filterMap (fun p =>
        match p.2 with
        | .epCls e => some (p.1, e)
        | _ => none)) [] g with
  | .error m => .error m
  | .ok (result, toSet, g') =>
    .ok (result,
      { n with
        eps := toSet.foldl (fun d p => dictUpsert d p.1 (PyVal.epCls p.2)) n.eps
        cache := some result }, g')

/-- `Wapp.get_endpoints` (`src/wapp/core.py` lines 135-186):
`if not fresh and cls._cached_endpoints is not None` the cached list is
returned with the class untouched; otherwise the container is
(re)resolved. -/
def get_endpoints (n : WappNode) (fresh : Bool) (g : Nat) :
    Except String (List (String × EndpointObj) × WappNode × Nat) :=
  if !fresh && n.cache.isSome then
    .ok (n.cache.getD [], n, g)
  else
    resolve_endpoints n g

/-! ## ASGI variant: directive handling of `Wapp.build_router`
(`src/wapp/core/asgi.py` lines 245-273) -/

/-- The `(method, path)` pairs of the five routes registered by
`make_crud_router` (`src/wapp/core/asgi.py` lines 136-191), with the
router's `/{slug}` prefix applied, in registration order
(list, get, create, update, delete). -/
def asgi_make_crud_routes (slug : String) : List (String × String) :=
  [("GET", "/" ++ slug ++ "/"),
   ("GET", "/" ++ slug ++ "/{id:int}"),
   ("POST", "/" ++ slug ++ "/"),
   ("PUT", "/" ++ slug ++ "/{id:int}"),
   ("DELETE", "/" ++ slug ++ "/{id:int}")]

/-- The routes the ASGI `Wapp.build_router` registers for one CRUD
directive value (`src/wapp/core/asgi.py` lines 266-273):
`if val is True or isinstance(val, dict)` the full `make_crud_router` is
included — the contents of a dict directive are never inspected — and any
other value contributes nothing. -/
def asgi_directive_routes (slug : String) (val : PyVal) : List (String × String) :=
  match val with
  | .pyBool true => asgi_make_crud_routes slug
  | .pyDict _ => asgi_make_crud_routes slug
  | _ => []

/-! ## Result projections and concrete fixtures -/

/-- The route list of a resolution outcome (empty on error). -/
def resRoutes (x : Except String (List (String × EndpointObj) × WappNode × Nat)) :
    List (String × EndpointObj) :=
  match x with
  | .ok (r, _, _) => r
  | .error _ => []

/-- The mutated node of a resolution outcome. -/
def resNode (x : Except String (List (String × EndpointObj) × WappNode × Nat)) :
    Option WappNode :=
  match x with
  | .ok (_, n, _) => some n
  | .error _ => none

/-- The route list and next fresh id of a resolution outcome, i.e. the
observable result without the mutated node. -/
def resRG (x : Except String (List (String × EndpointObj) × WappNode × Nat)) :
    Except String (List (String × EndpointObj) × Nat) :=
  x.map (fun t => (t.1, t.2.2))

/-- Whether a resolution raised. -/
def isErr {ε α : Type} : Except ε α → Bool
  | .error _ => true
  | .ok _ => false

/-- A model class named `User` whose `WappModel` has slug `user`. -/
def userModel : ModelCls :=
  { clsName := "User", wappModel := some { slug := some "user", name := "User" } }

/-- A `Wapp` node owning `User` whose `Endpoints` container holds the
single CRUD directive `_user = dirVal`. -/
def dirNode (dirVal : PyVal) : WappNode :=
  { clsName := "W"
  , models := [("user", userModel)]
  , eps := [("_user", dirVal)]
  , cache := none
  , db := none }

/-- A node owning a model under attribute name `user`, class name `mcls`,
slug `slug`, with the plain directive `_user = True`. -/
def trueDirNode (slug mcls mname : String) (dbv : Option Nat) : WappNode :=
  { clsName := "W"
  , models := [("user", { clsName := mcls, wappModel := some { slug := some slug, name := mname } })]
  , eps := [("_user", .pyBool true)]
  , cache := none
  , db := dbv }

/-! ## Claim C1 — per-action CRUD directive values -/

/-- C1 counterexample: the claim says the directive `{list: False, get: None}`
produces a route set that excludes `list` and includes a default-generated
`get`. On the code (`src/wapp/core.py` lines 163-175) the `None` value for
`get` falls through both the `if v is False or None` test (which only fires
for `False`, since `or None` is a dead operand) and the two truthiness
branches, so no `get` endpoint is generated either: resolution succeeds and
the resolved route set for this directive is empty — it does not include a
default-generated `get`. -/
theorem c1_dict_directive_none_counterexample :
    resRoutes (get_endpoints (dirNode (.pyDict [(.list, .vFalse), (.get, .vNone)])) true 0) = [] ∧
    isErr (get_endpoints (dirNode (.pyDict [(.list, .vFalse), (.get, .vNone)])) true 0) = false :=
  ⟨rfl, rfl⟩

/-- C1 amended: in a per-action CRUD directive map of the Flask core, an
action whose value is `False` is excluded, and an action whose value is
`None` (or absent) is also excluded — it does not yield a default handler;
only truthy values yield routes (an explicit endpoint class as override, any
other truthy value a default-generated handler). In particular
`{list: False, get: None}` produces no routes at all, while `{get: True}`
produces exactly the default-generated `get`. In the ASGI variant
(`src/wapp/core/asgi.py` lines 266-273) the contents of a dict directive
are ignored entirely: `{list: False, get: None}` yields all five CRUD
routes. -/
theorem c1_dict_directive_amended :
    resRoutes (get_endpoints (dirNode (.pyDict [(.list, .vFalse), (.get, .vNone)])) true 0) = [] ∧
    (resRoutes (get_endpoints (dirNode (.pyDict [(.get, .vTrue)])) true 0)).map
        (fun p => (p.1, p.2.method, p.2.pattern)) =
      [("user_get", some "GET", some "/user/<int:id>")] ∧
    asgi_directive_routes "user" (.pyDict [(.list, .vFalse), (.get, .vNone)]) =
      asgi_make_crud_routes "user" :=
  ⟨rfl, rfl, rfl⟩

/-! ## Claim C2 — idempotence of resolution -/

/-- The node state after a first fresh resolution of `_user = True`
(the state `Wapp.bind` leaves behind before a second bind re-resolves). -/
def c2NodeAfterFirst : WappNode :=
  (resNode (get_endpoints (dirNode (.pyBool true)) true 0)).getD (dirNode (.pyBool true))

/-- C2 counterexample: resolving the same node twice does not yield
identical route tables. The first fresh resolution of `_user = True` yields
5 routes and writes the synthesized classes back onto the `Endpoints`
container (`src/wapp/core.py` lines 182-184). A second fresh resolution —
what a repeated `Wapp.bind` performs, since `bind` clears the cache and
calls `get_endpoints(fresh=True)` — picks those synthesized attributes up
as explicit endpoint classes in step 1 and regenerates five fresh classes
in step 2: 10 routes, every synthesized name duplicated. -/
theorem c2_fresh_reresolution_counterexample :
    (resRoutes (get_endpoints (dirNode (.pyBool true)) true 0)).length = 5 ∧
    (resRoutes (get_endpoints c2NodeAfterFirst true 5)).length = 10 ∧
    ¬ ((resRoutes (get_endpoints c2NodeAfterFirst true 5)).map Prod.fst).Nodup :=
  ⟨rfl, rfl, by decide⟩

/-- C2 amended: resolution is idempotent only through the class-level
cache: after any successful fresh resolution, a subsequent non-fresh
`get_endpoints` call returns the identical cached route table (same order,
same names, same handler-object identity) without touching the node. A
*fresh* re-resolution (as performed by repeated binding) instead duplicates
every synthesized route, as the counterexample shows. -/
theorem c2_resolution_idempotent_via_cache (n : WappNode) (g g' : Nat)
    (r : List (String × EndpointObj)) (n' : WappNode)
    (h : get_endpoints n true g = .ok (r, n', g')) :
    get_endpoints n' false g' = .ok (r, n', g') := by
  have hres : resolve_endpoints n g = .ok (r, n', g') := h
  unfold resolve_endpoints at hres
  rcases hc : crudLoop n.db (get_models n) n.eps
      (n.eps.filterMap fun p => match p.2 with | .epCls e => some (p.1, e) | _ => none) [] g
    with m | ⟨res, ts, g2⟩
  · rw [hc] at hres
    simp at hres
  · rw [hc] at hres
    simp only [Except.ok.injEq, Prod.mk.injEq] at hres
    obtain ⟨hr, hn, hg⟩ := hres
    subst hr hg
    rw [← hn]
    rfl

/-- C2 witness: the cached-idempotence theorem applied to the concrete
`_user = True` node. -/
theorem c2_resolution_idempotent_via_cache_witness :
    get_endpoints (dirNode (.pyBool true)) true 0 =
      .ok (resRoutes (get_endpoints (dirNode (.pyBool true)) true 0), c2NodeAfterFirst, 5) ∧
    get_endpoints c2NodeAfterFirst false 5 =
      .ok (resRoutes (get_endpoints (dirNode (.pyBool true)) true 0), c2NodeAfterFirst, 5) := by
  have h : get_endpoints (dirNode (.pyBool true)) true 0 =
      .ok (resRoutes (get_endpoints (dirNode (.pyBool true)) true 0), c2NodeAfterFirst, 5) := rfl
  exact ⟨h, c2_resolution_idempotent_via_cache _ _ _ _ _ h⟩

/-! ## Claim C3 — `_{modelname} = True` yields exactly the five CRUD routes -/

/-- C3: for every model with slug `slug` (and any class name, display name,
bound db and fresh-id counter), resolving a node whose `Endpoints`
container sets `_user = True` for a model attribute named `user` yields
exactly five routes whose (method, pattern) pairs are exactly
GET `/{slug}/<int:id>` (get), GET `/{slug}/` (list), POST `/{slug}/`
(create), PUT `/{slug}/<int:id>` (update), DELETE `/{slug}/<int:id>`
(delete), in `CRUD_ACTIONS` declaration order, with the pattern derived
deterministically from the action template and the slug. -/
theorem c3_true_directive_five_routes (slug mcls mname : String)
    (dbv : Option Nat) (g : Nat) :
    (resRoutes (get_endpoints (trueDirNode slug mcls mname dbv) true g)).map
        (fun p => (p.1, p.2.method, p.2.pattern)) =
      [("user_get", some "GET", some ("/" ++ slug ++ "/<int:id>")),
       ("user_list", some "GET", some ("/" ++ slug ++ "/")),
       ("user_create", some "POST", some ("/" ++ slug ++ "/")),
       ("user_update", some "PUT", some ("/" ++ slug ++ "/<int:id>")),
       ("user_delete", some "DELETE", some ("/" ++ slug ++ "/<int:id>"))] :=
  rfl

/-! ## Claim C8 — absent model ignored, missing slug fatal -/

/-- Step 2 of `get_endpoints` skips a directive whose attribute name
references a model absent from the model mapping
(`src/wapp/core.py` lines 156-157: `if model_name not in models: continue`). -/
lemma crudStep_absent_model (dbNow : Option Nat) (models : List (String × ModelCls))
    (nm : String) (v : PyVal) (g : Nat)
    (h1 : pyStartsUnderscore nm = true)
    (h2 : models.lookup (pyDropFirst nm) = none) :
    crudStep dbNow models nm v g = .ok ([], g) := by
  simp [crudStep, h1, h2]

/-- Dropping an absent-model directive entry anywhere in the `Endpoints`
attribute list leaves the step-2 loop's outcome unchanged. -/
lemma crudLoop_ignores_absent (dbNow : Option Nat) (models : List (String × ModelCls))
    (nm : String) (v : PyVal)
    (h1 : pyStartsUnderscore nm = true)
    (h2 : models.lookup (pyDropFirst nm) = none) :
    ∀ (pre post : List (String × PyVal)) (res ts : List (String × EndpointObj)) (g : Nat),
      crudLoop dbNow models (pre ++ (nm, v) :: post) res ts g =
        crudLoop dbNow models (pre ++ post) res ts g := by
  intro pre
  induction pre with
  | nil =>
    intro post res ts g
    simp only [List.nil_append, crudLoop]
    rw [crudStep_absent_model dbNow models nm v g h1 h2]
    simp [crudLoop]
  | cons e pre ih =>
    intro post res ts g
    obtain ⟨enm, ev⟩ := e
    simp only [List.cons_append, crudLoop]
    cases hs : crudStep dbNow models enm ev g with
    | error m => rfl
    | ok p =>
      obtain ⟨entries, g1⟩ := p
      exact ih post (res ++ entries) (entries.foldl (fun d p => dictUpsert d p.1 p.2) ts) g1

/-- A directive whose referenced model carries a `WappModel` without a
`slug` raises the `ValueError` of `src/wapp/core.py` lines 159-161,
whatever the directive's value is. -/
lemma crudStep_missing_slug (dbNow : Option Nat) (models : List (String × ModelCls))
    (nm : String) (v : PyVal) (g : Nat) (m : ModelCls) (meta : WappModelMeta)
    (h1 : pyStartsUnderscore nm = true)
    (h2 : models.lookup (pyDropFirst nm) = some m)
    (h3 : m.wappModel = some meta)
    (h4 : meta.slug = none) :
    crudStep dbNow models nm v g =
      .error ("Model " ++ pyDropFirst nm ++ " missing WappModel.slug.") := by
  simp [crudStep, h1, h2, h3, h4]

/-- If any entry of the attribute list is a missing-slug directive, the
step-2 loop raises. -/
lemma crudLoop_missing_slug (dbNow : Option Nat) (models : List (String × ModelCls))
    (nm : String) (v : PyVal) (m : ModelCls) (meta : WappModelMeta)
    (h1 : pyStartsUnderscore nm = true)
    (h2 : models.lookup (pyDropFirst nm) = some m)
    (h3 : m.wappModel = some meta)
    (h4 : meta.slug = none) :
    ∀ (entries : List (String × PyVal)) (res ts : List (String × EndpointObj)) (g : Nat),
      (nm, v) ∈ entries →
      isErr (crudLoop dbNow models entries res ts g) = true := by
  intro entries
  induction entries with
  | nil => intro res ts g hmem; cases hmem
  | cons e rest ih =>
    intro res ts g hmem
    obtain ⟨enm, ev⟩ := e
    rcases List.mem_cons.mp hmem with heq | hmem'
    · obtain ⟨rfl, rfl⟩ := Prod.mk.injEq .. ▸ heq
      simp only [crudLoop]
      rw [crudStep_missing_slug dbNow models nm v g m meta h1 h2 h3 h4]
      rfl
    · simp only [crudLoop]
      cases hs : crudStep dbNow models enm ev g with
      | error msg => rfl
      | ok p =>
        obtain ⟨entries2, g1⟩ := p
        exact ih (res ++ entries2) (entries2.foldl (fun d p => dictUpsert d p.1 p.2) ts) g1 hmem'

/-- C8: (1) a CRUD directive whose attribute name references a model name
absent from the node's model mapping is silently ignored during a fresh
resolution — removing the entry changes neither the resolved route list,
nor the fresh-id counter, nor the error behaviour; (2) a referenced model
whose `WappModel` lacks a resolvable slug causes the resolution itself to
raise a `ValueError` — a configuration error at resolution time, not
deferred to request time. -/
theorem c8_absent_ignored_missing_slug_fatal :
    (∀ (cn : String) (ms : List (String × ModelCls)) (cache : Option (List (String × EndpointObj)))
       (dbv : Option Nat) (pre post : List (String × PyVal)) (nm : String) (v : PyVal) (g : Nat),
      pyStartsUnderscore nm = true →
      (modelsMap ms).lookup (pyDropFirst nm) = none →
      isEpCls v = false →
      resRG (get_endpoints ⟨cn, ms, pre ++ (nm, v) :: post, cache, dbv⟩ true g) =
        resRG (get_endpoints ⟨cn, ms, pre ++ post, cache, dbv⟩ true g))
    ∧
    (∀ (n : WappNode) (nm : String) (v : PyVal) (g : Nat) (m : ModelCls) (meta : WappModelMeta),
      (nm, v) ∈ n.eps →
      pyStartsUnderscore nm = true →
      (get_models n).lookup (pyDropFirst nm) = some m →
      m.wappModel = some meta →
      meta.slug = none →
      isErr (get_endpoints n true g) = true) := by
  constructor
  · intro cn ms cache dbv pre post nm v g h1 h2 h3
    have hf : (fun p : String × PyVal =>
        match p.2 with
        | PyVal.epCls e => some (p.1, e)
        | _ => none) (nm, v) = (none : Option (String × EndpointObj)) := by
      cases v <;> simp_all [isEpCls]
    show resRG (resolve_endpoints ⟨cn, ms, pre ++ (nm, v) :: post, cache, dbv⟩ g) =
      resRG (resolve_endpoints ⟨cn, ms, pre ++ post, cache, dbv⟩ g)
    unfold resolve_endpoints
    dsimp only [get_models]
    rw [crudLoop_ignores_absent dbv (modelsMap ms) nm v h1 h2 pre post]
    have hfm : (pre ++ (nm, v) :: post).filterMap (fun p : String × PyVal =>
        match p.2 with
        | PyVal.epCls e => some (p.1, e)
        | _ => none) = (pre ++ post).filterMap (fun p : String × PyVal =>
        match p.2 with
        | PyVal.epCls e => some (p.1, e)
        | _ => none) := by
      simp only [List.filterMap_append, List.filterMap_cons, hf]
    rw [hfm]
    rcases hcl : crudLoop dbv (modelsMap ms) (pre ++ post)
        ((pre ++ post).filterMap (fun p : String × PyVal =>
          match p.2 with
          | PyVal.epCls e => some (p.1, e)
          | _ => none)) [] g with msg | ⟨res2, ts2, g2⟩ <;> rfl
  · intro n nm v g m meta hmem h1 h2 h3 h4
    show isErr (resolve_endpoints n g) = true
    have herr := crudLoop_missing_slug n.db (get_models n) nm v m meta h1 h2 h3 h4
      n.eps (n.eps.filterMap (fun p : String × PyVal =>
        match p.2 with
        | PyVal.epCls e => some (p.1, e)
        | _ => none)) [] g hmem
    unfold resolve_endpoints
    rcases hcl : crudLoop n.db (get_models n) n.eps
        (n.eps.filterMap (fun p : String × PyVal =>
          match p.2 with
          | PyVal.epCls e => some (p.1, e)
          | _ => none)) [] g with msg | ⟨res2, ts2, g2⟩
    · rfl
    · rw [hcl] at herr
      exact absurd herr (by simp [isErr])

/-- A model whose `WappModel` metadata lacks the `slug` attribute. -/
def slugLessModel : ModelCls :=
  { clsName := "User", wappModel := some { slug := none, name := "User" } }

/-- C8 witness: the theorem applied to concrete nodes — the directive
`_ghost = True` with no model named `ghost` resolves exactly like the node
without it, and the directive `_user = True` for a model whose `WappModel`
has no slug makes resolution raise. -/
theorem c8_absent_ignored_missing_slug_fatal_witness :
    resRG (get_endpoints ⟨"W", [("user", userModel)], [("_ghost", .pyBool true)], none, none⟩ true 0) =
      resRG (get_endpoints ⟨"W", [("user", userModel)], [], none, none⟩ true 0) ∧
    isErr (get_endpoints ⟨"W", [("user", slugLessModel)], [("_user", .pyBool true)], none, none⟩ true 0) = true := by
  constructor
  · exact c8_absent_ignored_missing_slug_fatal.1 "W" [("user", userModel)] none none
      [] [] "_ghost" (.pyBool true) 0 (by decide) (by decide) (by decide)
  · exact c8_absent_ignored_missing_slug_fatal.2
      ⟨"W", [("user", slugLessModel)], [("_user", .pyBool true)], none, none⟩
      "_user" (.pyBool true) 0 slugLessModel { slug := none, name := "User" }
      (by decide) (by decide) (by decide) (by decide) (by decide)

/-! ## Request handlers: `src/wapp/endpoint_base.py` and
`src/wapp/generic_endpoints.py` (Flask variant), and the synthesized
handlers of `make_crud_router` (`src/wapp/core/asgi.py`). -/

/-- A JSON object, as the handlers see request bodies and records: a
mapping of field names to (here integer-valued) fields. -/
def Json : Type := List (String × Int)
deriving instance DecidableEq, Repr for Json

/-- The SQLAlchemy session/state a Flask handler touches: the persisted
rows (id → record), the number of successful `session.commit()` calls, the
number of `session.rollback()` calls (no code path in
`src/wapp/endpoint_base.py` or `src/wapp/generic_endpoints.py` ever calls
`rollback`, so nothing in the embedding increments it), and whether the
next `commit()` raises a data-layer error with the given message. -/
structure Sess where
  rows : List (Nat × Json)
  commits : Nat
  rollbacks : Nat
  commitFails : Option String
deriving DecidableEq, Repr

/-- A fresh primary key for an inserted row. -/
def nextId (s : Sess) : Nat :=
  (s.rows.map Prod.fst).foldl Nat.max 0 + 1

/-- A Flask response as the handlers produce it: either
`to_response(data)` (status 200 unless paired) or an error envelope
`{"error": msg}` with a status. -/
inductive FlaskResp where
  | ok (body : Json) (status : Nat)
  | err (msg : String) (status : Nat)
deriving DecidableEq, Repr

/-- The status code of a Flask response. -/
def respStatus : FlaskResp → Nat
  | .ok _ st => st
  | .err _ st => st

/-- `Get.handle` (`src/wapp/generic_endpoints.py` lines 18-22):
`self.model.query.get(path.get('id'))`; missing record →
`({"error": "Not found"}, 404)` with no session interaction. -/
def get_handle (s : Sess) (path : List (String × Nat)) :
    Except (String × Sess) (FlaskResp × Sess) :=
  match path.lookup "id" with
  | none => .ok (.err "Not found" 404, s)
  | some i =>
    match s.rows.lookup i with
    | none => .ok (.err "Not found" 404, s)
    | some obj => .ok (.ok obj 200, s)

/-- `Create.handle` (`src/wapp/generic_endpoints.py` lines 46-51):
`data = body.model_dump() if body else (request.get_json(silent=True) or {})`,
then `obj = self.model(**data); session.add(obj); session.commit()`. A
failing commit raises (state unpersisted); a successful one persists the
row and counts one commit. -/
def create_handle (s : Sess) (body : Option Json) (raw : Option Json) :
    Except (String × Sess) (FlaskResp × Sess) :=
  let data := match body with
    | some b => b
    | none => raw.getD []
  match s.commitFails with
  | some m => .error (m, s)
  | none =>
    .ok (.ok data 200,
      { s with rows := s.rows ++ [(nextId s, data)], commits := s.commits + 1 })

/-- `Update.handle` (`src/wapp/generic_endpoints.py` lines 62-70): resolve
the record by the path id (missing → 404 before any mutation), fold the
body (or raw JSON, or `{}`) over the record with `setattr`, then
`session.commit()`. -/
def update_handle (s : Sess) (path : List (String × Nat))
    (body : Option Json) (raw : Option Json) :
    Except (String × Sess) (FlaskResp × Sess) :=
  match path.lookup "id" with
  | none => .ok (.err "Not found" 404, s)
  | some i =>
    match s.rows.lookup i with
    | none => .ok (.err "Not found" 404, s)
    | some obj =>
      let data := match body with
        | some b => b
        | none => raw.getD []
      let obj' := data.foldl (fun o kv => dictUpsert o kv.1 kv.2) obj
      match s.commitFails with
      | some m => .error (m, s)
      | none =>
        .ok (.ok obj' 200,
          { s with
            rows := s.rows.map (fun p => if p.1 == i then (i, obj') else p)
            commits := s.commits + 1 })

/-- `Delete.handle` (`src/wapp/generic_endpoints.py` lines 81-87): resolve
by id (missing → 404 before any mutation), `session.delete(obj)`,
`session.commit()`, respond `{"deleted": True}` (here `("deleted", 1)`). -/
def delete_handle (s : Sess) (path : List (String × Nat)) :
    Except (String × Sess) (FlaskResp × Sess) :=
  match path.lookup "id" with
  | none => .ok (.err "Not found" 404, s)
  | some i =>
    match s.rows.lookup i with
    | none => .ok (.err "Not found" 404, s)
    | some _ =>
      match s.commitFails with
      | some m => .error (m, s)
      | none =>
        .ok (.ok [("deleted", 1)] 200,
          { s with
            rows := s.rows.filter (fun p => !(p.1 == i))
            commits := s.commits + 1 })

/-- The body computation of `WappEndpoint.handle_request`
(`src/wapp/endpoint_base.py` lines 23-30): `body = None`; when the `Meta`
declares a `request_model`, the raw JSON (or `{}`) is validated, and any
validation exception silently leaves `body = None`. A validator returning
`none` models `model_validate` raising. -/
def handle_request_body (requestModel : Option (Json → Option Json))
    (raw : Option Json) : Option Json :=
  match requestModel with
  | none => none
  | some validate => validate (raw.getD [])

/-- `handle_request` around `Get.handle`: the catch-all `except` of
`src/wapp/endpoint_base.py` lines 33-35 turns any exception into
`({"error": str(e)}, 500)` without rolling back. -/
def run_get (path : List (String × Nat)) (s : Sess) : FlaskResp × Sess :=
  match get_handle s path with
  | .ok (r, s') => (r, s')
  | .error (m, s') => (.err m 500, s')

/-- `handle_request` around `Create.handle`. -/
def run_create (requestModel : Option (Json → Option Json))
    (raw : Option Json) (s : Sess) : FlaskResp × Sess :=
  match create_handle s (handle_request_body requestModel raw) raw with
  | .ok (r, s') => (r, s')
  | .error (m, s') => (.err m 500, s')

/-- `handle_request` around `Update.handle`. -/
def run_update (requestModel : Option (Json → Option Json))
    (raw : Option Json) (path : List (String × Nat)) (s : Sess) :
    FlaskResp × Sess :=
  match update_handle s path (handle_request_body requestModel raw) raw with
  | .ok (r, s') => (r, s')
  | .error (m, s') => (.err m 500, s')

/-- `handle_request` around `Delete.handle`. -/
def run_delete (path : List (String × Nat)) (s : Sess) : FlaskResp × Sess :=
  match delete_handle s path with
  | .ok (r, s') => (r, s')
  | .error (m, s') => (.err m 500, s')

/-- The async database state the ASGI handlers touch. -/
structure ADb where
  rows : List (Nat × Json)
  commits : Nat
deriving DecidableEq, Repr

/-- A FastAPI handler outcome: a JSON response with a status code, or a
raised `HTTPException(status, detail)`. -/
inductive AResp where
  | json (body : Json) (status : Nat)
  | httpExc (status : Nat) (detail : String)
deriving DecidableEq, Repr

/-- `get_handler` of `make_crud_router` (`src/wapp/core/asgi.py` lines
152-157): `session.get` then `raise HTTPException(404, "Not found")` when
the object is missing. -/
def asgi_get_handler (db : ADb) (i : Nat) : AResp × ADb :=
  match db.rows.lookup i with
  | none => (.httpExc 404 "Not found", db)
  | some obj => (.json obj 200, db)

/-- `update_handler` of `make_crud_router` (`src/wapp/core/asgi.py` lines
170-180): 404 when missing, otherwise setattr each payload field and
commit. -/
def asgi_update_handler (db : ADb) (i : Nat) (payload : Json) : AResp × ADb :=
  match db.rows.lookup i with
  | none => (.httpExc 404 "Not found", db)
  | some obj =>
    let obj' := payload.foldl (fun o kv => dictUpsert o kv.1 kv.2) obj
    (.json obj' 200,
      { db with
        rows := db.rows.map (fun p => if p.1 == i then (i, obj') else p)
        commits := db.commits + 1 })

/-- `delete_handler` of `make_crud_router` (`src/wapp/core/asgi.py` lines
183-189): `if obj: delete + commit`; in both cases the handler returns
`{}` and the route's declared `status_code=204` applies — a missing id is
*not* signalled as 404. -/
def asgi_delete_handler (db : ADb) (i : Nat) : AResp × ADb :=
  match db.rows.lookup i with
  | some _ =>
    (.json [] 204,
      { db with
        rows := db.rows.filter (fun p => !(p.1 == i))
        commits := db.commits + 1 })
  | none => (.json [] 204, db)

/-! ## Claim C4 — not-found behaviour of synthesized get/update/delete -/

/-- C4 counterexample: the claim requires every synthesized delete handler
to return a distinct not-found (404) response when the identifier does not
resolve. The ASGI `delete_handler` (`src/wapp/core/asgi.py` lines 183-189)
instead returns the empty success body with the route's declared 204
status on a missing id — not a 404 — while performing no mutation. -/
theorem c4_asgi_delete_204_counterexample :
    asgi_delete_handler ⟨[], 0⟩ 1 = (.json [] 204, ⟨[], 0⟩) ∧
    (AResp.json [] 204) ≠ (.httpExc 404 "Not found") :=
  ⟨rfl, by decide⟩

/-- C4 amended: on an unresolved identifier, the Flask `get`, `update` and
`delete` handlers and the ASGI `get` and `update` handlers return a
distinct 404 not-found response without raising and with the session state
untouched (zero mutations, zero commits); the ASGI `delete` handler is the
exception — it returns an empty 204 success, likewise with zero mutations
and zero commits. -/
theorem c4_not_found_amended (s : Sess) (adb : ADb) (path : List (String × Nat))
    (rm : Option (Json → Option Json)) (raw : Option Json) (payload : Json) (i j : Nat)
    (h1 : path.lookup "id" = some i)
    (h2 : s.rows.lookup i = none)
    (h3 : adb.rows.lookup j = none) :
    run_get path s = (.err "Not found" 404, s) ∧
    run_update rm raw path s = (.err "Not found" 404, s) ∧
    run_delete path s = (.err "Not found" 404, s) ∧
    asgi_get_handler adb j = (.httpExc 404 "Not found", adb) ∧
    asgi_update_handler adb j payload = (.httpExc 404 "Not found", adb) ∧
    asgi_delete_handler adb j = (.json [] 204, adb) := by
  refine ⟨?_, ?_, ?_, ?_, ?_, ?_⟩
  · simp [run_get, get_handle, h1, h2]
  · simp [run_update, update_handle, h1, h2]
  · simp [run_delete, delete_handle, h1, h2]
  · simp [asgi_get_handler, h3]
  · simp [asgi_update_handler, h3]
  · simp [asgi_delete_handler, h3]

/-- C4 witness: the amended theorem on an empty database with ids 7
(Flask) and 3 (ASGI). -/
theorem c4_not_found_amended_witness :
    run_get [("id", 7)] ⟨[], 0, 0, none⟩ = (.err "Not found" 404, ⟨[], 0, 0, none⟩) ∧
    run_update none none [("id", 7)] ⟨[], 0, 0, none⟩ = (.err "Not found" 404, ⟨[], 0, 0, none⟩) ∧
    run_delete [("id", 7)] ⟨[], 0, 0, none⟩ = (.err "Not found" 404, ⟨[], 0, 0, none⟩) ∧
    asgi_get_handler ⟨[], 0⟩ 3 = (.httpExc 404 "Not found", ⟨[], 0⟩) ∧
    asgi_update_handler ⟨[], 0⟩ 3 [("name", 1)] = (.httpExc 404 "Not found", ⟨[], 0⟩) ∧
    asgi_delete_handler ⟨[], 0⟩ 3 = (.json [] 204, ⟨[], 0⟩) :=
  c4_not_found_amended ⟨[], 0, 0, none⟩ ⟨[], 0⟩ [("id", 7)] none none [("name", 1)] 7 3 rfl rfl rfl

/-! ## Claim C5 — data-layer failures -/

/-- A session whose next commit raises a constraint violation. -/
def c5sess : Sess := ⟨[(1, [("name", 1)])], 0, 0, some "UNIQUE constraint failed"⟩

/-- C5 counterexample: the claim requires a failing data-access operation
to be rolled back and surfaced as a 400-class client error. The code
(`src/wapp/endpoint_base.py` lines 33-35) catches the exception in the
generic `except` of `handle_request` and surfaces it as a **500** response
carrying the message; no `rollback()` is ever called (the state is
returned untouched, `rollbacks` still 0). 500 is not a 400-class status. -/
theorem c5_db_error_500_counterexample :
    run_create none (some [("name", 2)]) c5sess =
      (.err "UNIQUE constraint failed" 500, c5sess) ∧
    ¬ (respStatus (run_create none (some [("name", 2)]) c5sess).1 ≤ 499) :=
  ⟨rfl, by decide⟩

/-- C5 amended: when a data-access operation fails in a synthesized
handler, the exception is caught by `handle_request` and surfaced as a
**500** response carrying the underlying message — never propagated as a
fatal failure — with zero commits on the failing request; no rollback is
issued (the session state, including the `rollbacks` and `commits`
counters, is returned exactly as it was). -/
theorem c5_db_error_500_amended (s : Sess) (rm : Option (Json → Option Json))
    (raw : Option Json) (path : List (String × Nat)) (i : Nat) (obj : Json)
    (msg : String) (h : s.commitFails = some msg) :
    run_create rm raw s = (.err msg 500, s) ∧
    (path.lookup "id" = some i → s.rows.lookup i = some obj →
      run_update rm raw path s = (.err msg 500, s)) ∧
    (path.lookup "id" = some i → s.rows.lookup i = some obj →
      run_delete path s = (.err msg 500, s)) := by
  refine ⟨?_, ?_, ?_⟩
  · simp [run_create, create_handle, h]
  · intro h1 h2
    simp [run_update, update_handle, h1, h2, h]
  · intro h1 h2
    simp [run_delete, delete_handle, h1, h2, h]

/-- C5 witness: the amended theorem on a one-row session whose commit
raises. -/
theorem c5_db_error_500_amended_witness :
    run_create none (some [("name", 2)]) c5sess = (.err "UNIQUE constraint failed" 500, c5sess) ∧
    run_update none (some [("name", 2)]) [("id", 1)] c5sess = (.err "UNIQUE constraint failed" 500, c5sess) ∧
    run_delete [("id", 1)] c5sess = (.err "UNIQUE constraint failed" 500, c5sess) := by
  have h := c5_db_error_500_amended c5sess none (some [("name", 2)]) [("id", 1)] 1
    [("name", 1)] "UNIQUE constraint failed" rfl
  exact ⟨h.1, h.2.1 rfl rfl, h.2.2 rfl rfl⟩

/-! ## Claim C9 — invalid bodies fall back to the raw payload -/

/-- C9: in the Flask variant, when an endpoint declares a `request_model`
and the request body fails validation, `handle_request` silently sets the
parsed body to `None` (`src/wapp/endpoint_base.py` lines 29-30), and the
`create`/`update` handlers then fall back to the raw request JSON or `{}`
(`src/wapp/generic_endpoints.py` lines 47 and 66): the whole request is
processed exactly as if no request model had been declared — the invalid
body is never rejected with a validation error. -/
theorem c9_invalid_body_fallback (validate : Json → Option Json)
    (raw : Option Json) (path : List (String × Nat)) (s : Sess)
    (h : validate (raw.getD []) = none) :
    handle_request_body (some validate) raw = none ∧
    run_create (some validate) raw s = run_create none raw s ∧
    run_update (some validate) raw path s = run_update none raw path s := by
  refine ⟨?_, ?_, ?_⟩
  · simp [handle_request_body, h]
  · simp [run_create, handle_request_body, h]
  · simp [run_update, handle_request_body, h]

/-- C9 witness: a validator rejecting everything, on a concrete body. -/
theorem c9_invalid_body_fallback_witness :
    handle_request_body (some (fun _ => none)) (some [("x", 1)]) = none ∧
    run_create (some (fun _ => none)) (some [("x", 1)]) ⟨[], 0, 0, none⟩ =
      run_create none (some [("x", 1)]) ⟨[], 0, 0, none⟩ ∧
    run_update (some (fun _ => none)) (some [("x", 1)]) [("id", 1)] ⟨[], 0, 0, none⟩ =
      run_update none (some [("x", 1)]) [("id", 1)] ⟨[], 0, 0, none⟩ :=
  c9_invalid_body_fallback (fun _ => none) (some [("x", 1)]) [("id", 1)] ⟨[], 0, 0, none⟩ rfl

/-! ## Schema derivation: `build_pyd_from_sqla`
(`src/wapp/core/asgi.py` lines 82-122) -/

/-- `col.type.python_type` as far as the derivation inspects it
(`in (int,)` membership). -/
inductive PyType where
  | pInt
  | pStr
  | pFloat
  | pBool
  | pOther
deriving DecidableEq, Repr

/-- A SQLAlchemy column as `build_pyd_from_sqla` reads it: name, Python
type, nullability, presence of a client-side default (`col.default is not
None`), presence of a server-side default, primary-key flag, and the
truthiness of `col.autoincrement`. -/
structure SqlaColumn where
  name : String
  pyType : PyType
  nullable : Bool
  hasDefault : Bool
  hasServerDefault : Bool
  primaryKey : Bool
  autoincrement : Bool
deriving DecidableEq, Repr

/-- `_col_is_autoincrement` (`src/wapp/core/asgi.py` lines 82-83):
`bool(col.autoincrement or (col.primary_key and col.type.python_type in (int,)))`. -/
def col_is_autoincrement (c : SqlaColumn) : Bool :=
  c.autoincrement || (c.primaryKey && c.pyType == .pInt)

/-- One field of a generated Pydantic model: its name, its type, whether
the type is wrapped `Optional[...]` (update mode), and whether the field's
default is `...` (required) rather than `None`. -/
structure PydField where
  name : String
  ty : PyType
  optionalTy : Bool
  required : Bool
deriving DecidableEq, Repr

/-- The derivation mode: `"out" | "create" | "update"`. -/
inductive PydMode where
  | out
  | create
  | update
deriving DecidableEq, Repr

/-- Python dict assignment `fields[col.name] = ...`. -/
def fieldsUpsert (d : List PydField) (f : PydField) : List PydField :=
  if d.any (fun p => p.name == f.name) then
    d.map (fun p => if p.name == f.name then f else p)
  else
    d ++ [f]

/-- The loop body of `build_pyd_from_sqla` (`src/wapp/core/asgi.py` lines
102-119) for one column: `required = not col.nullable and col.default is
None and col.server_default is None`; `out` keeps every column, required
unless auto-incrementing; `create` skips auto-incrementing primary keys
and requires `required and not col.primary_key`; `update` makes every
field `(Optional[py_t], None)`. -/
def build_pyd_step (mode : PydMode) (fields : List PydField) (col : SqlaColumn) :
    List PydField :=
  let required := !col.nullable && !col.hasDefault && !col.hasServerDefault
  match mode with
  | .out =>
    fieldsUpsert fields ⟨col.name, col.pyType, false, required && !col_is_autoincrement col⟩
  | .create =>
    if col.primaryKey && col_is_autoincrement col then
      fields
    else
      fieldsUpsert fields ⟨col.name, col.pyType, false, required && !col.primaryKey⟩
  | .update =>
    fieldsUpsert fields ⟨col.name, col.pyType, true, false⟩

/-- `build_pyd_from_sqla` (`src/wapp/core/asgi.py` lines 90-122): fold the
loop body over the table's columns in declaration order, building the
`fields` dict. -/
def build_pyd_from_sqla (cols : List SqlaColumn) (mode : PydMode) : List PydField :=
  cols.foldl (build_pyd_step mode) []

/-! ## Claim C6 — create/update schema shapes -/

/-- The per-column create-mode shape the claim describes: exclude
auto-incrementing primary keys; otherwise the field is required exactly
when the column is non-nullable, has no client- or server-side default,
and is not the primary key. -/
def createField (c : SqlaColumn) : Option PydField :=
  if c.primaryKey && col_is_autoincrement c then none
  else some ⟨c.name, c.pyType, false,
    (!c.nullable && !c.hasDefault && !c.hasServerDefault) && !c.primaryKey⟩

/-- The create-mode fold equals the per-column closed form, provided the
table's column names are distinct (as SQLAlchemy guarantees). -/
lemma build_pyd_create_go :
    ∀ (cols : List SqlaColumn) (acc : List PydField),
      (∀ c ∈ cols, acc.any (fun p => p.name == c.name) = false) →
      (cols.map SqlaColumn.name).Nodup →
      cols.foldl (build_pyd_step .create) acc = acc ++ cols.filterMap createField := by
  intro cols
  induction cols with
  | nil => intro acc _ _; simp
  | cons c rest ih =>
    intro acc hacc hnd
    rw [List.map_cons, List.nodup_cons] at hnd
    obtain ⟨hcnot, hnd'⟩ := hnd
    simp only [List.foldl_cons]
    by_cases hpk : (c.primaryKey && col_is_autoincrement c) = true
    · have hstep : build_pyd_step .create acc c = acc := by
        simp [build_pyd_step, hpk]
      rw [hstep, ih acc (fun c' hc' => hacc c' (List.mem_cons_of_mem _ hc')) hnd']
      have hfc : createField c = none := by simp [createField, hpk]
      rw [List.filterMap_cons, hfc]
    · have hany : acc.any (fun p => p.name == c.name) = false :=
        hacc c (List.mem_cons_self _ _)
      have hpk' : (c.primaryKey && col_is_autoincrement c) = false := by
        simpa using hpk
      have hstep : build_pyd_step .create acc c =
          acc ++ [⟨c.name, c.pyType, false,
            (!c.nullable && !c.hasDefault && !c.hasServerDefault) && !c.primaryKey⟩] := by
        simp [build_pyd_step, hpk', fieldsUpsert, hany]
      rw [hstep]
      have hacc' : ∀ c' ∈ rest,
          ((acc ++ [(⟨c.name, c.pyType, false,
            (!c.nullable && !c.hasDefault && !c.hasServerDefault) && !c.primaryKey⟩ : PydField)]).any
            (fun p => p.name == c'.name)) = false := by
        intro c' hc'
        have h1 := hacc c' (List.mem_cons_of_mem _ hc')
        have h2 : c.name ≠ c'.name := by
          intro heq
          exact hcnot (heq ▸ List.mem_map_of_mem SqlaColumn.name hc')
        simp [List.any_append, h1, h2]
      rw [ih _ hacc' hnd']
      have hfc : createField c = some ⟨c.name, c.pyType, false,
          (!c.nullable && !c.hasDefault && !c.hasServerDefault) && !c.primaryKey⟩ := by
        simp [createField, hpk']
      rw [List.filterMap_cons, hfc]
      simp

/-- The update-mode fold makes every column an optional field, in column
order. -/
lemma build_pyd_update_go :
    ∀ (cols : List SqlaColumn) (acc : List PydField),
      (∀ c ∈ cols, acc.any (fun p => p.name == c.name) = false) →
      (cols.map SqlaColumn.name).Nodup →
      cols.foldl (build_pyd_step .update) acc =
        acc ++ cols.map (fun c => ⟨c.name, c.pyType, true, false⟩) := by
  intro cols
  induction cols with
  | nil => intro acc _ _; simp
  | cons c rest ih =>
    intro acc hacc hnd
    rw [List.map_cons, List.nodup_cons] at hnd
    obtain ⟨hcnot, hnd'⟩ := hnd
    have hany : acc.any (fun p => p.name == c.name) = false :=
      hacc c (List.mem_cons_self _ _)
    simp only [List.foldl_cons]
    have hstep : build_pyd_step .update acc c =
        acc ++ [⟨c.name, c.pyType, true, false⟩] := by
      simp [build_pyd_step, fieldsUpsert, hany]
    rw [hstep]
    have hacc' : ∀ c' ∈ rest,
        ((acc ++ [(⟨c.name, c.pyType, true, false⟩ : PydField)]).any
          (fun p => p.name == c'.name)) = false := by
      intro c' hc'
      have h1 := hacc c' (List.mem_cons_of_mem _ hc')
      have h2 : c.name ≠ c'.name := by
        intro heq
        exact hcnot (heq ▸ List.mem_map_of_mem SqlaColumn.name hc')
      simp [List.any_append, h1, h2]
    rw [ih _ hacc' hnd']
    simp

/-- C6: for every table with distinct column names, the create-mode shape
excludes every auto-incrementing primary-key column and marks a field
required exactly when its column is non-nullable, has no client- or
server-side default, and is not the primary key (in stable column order);
the update-mode shape makes every field optional. -/
theorem c6_schema_derivation (cols : List SqlaColumn)
    (hnd : (cols.map SqlaColumn.name).Nodup) :
    build_pyd_from_sqla cols .create = cols.filterMap createField ∧
    build_pyd_from_sqla cols .update =
      cols.map (fun c => ⟨c.name, c.pyType, true, false⟩) := by
  constructor
  · simpa using build_pyd_create_go cols [] (by simp) hnd
  · simpa using build_pyd_update_go cols [] (by simp) hnd

/-- An auto-incrementing integer primary key column `id`. -/
def idCol : SqlaColumn := ⟨"id", .pInt, false, false, false, true, true⟩

/-- A non-nullable string column `name` with no default. -/
def nameCol : SqlaColumn := ⟨"name", .pStr, false, false, false, false, false⟩

/-- C6 witness: the claim's own example — a table with auto-incrementing
primary key `id` and non-nullable `name`: the create shape requires `name`
and excludes `id`; the update shape holds both, optional. -/
theorem c6_schema_derivation_witness :
    ([idCol, nameCol].map SqlaColumn.name).Nodup ∧
    build_pyd_from_sqla [idCol, nameCol] .create = [⟨"name", .pStr, false, true⟩] ∧
    build_pyd_from_sqla [idCol, nameCol] .update =
      [⟨"id", .pInt, true, false⟩, ⟨"name", .pStr, true, false⟩] := by
  have h := c6_schema_derivation [idCol, nameCol] (by decide)
  exact ⟨by decide, by rw [h.1]; rfl, by rw [h.2]; rfl⟩

/-! ## The composition tree: `Wapp.bind`, `_generate_endpoints_recursive`,
`_bind_db_recursive` and `_build_blueprint` (`src/wapp/core.py` lines
22-113). A node's nested `Wapps` container is a list of
(attribute name, child) pairs. -/

mutual
/-- A `Wapp` class together with its nested `Wapps` (`get_wapps`). -/
inductive WTree where
  | node (data : WappNode) (children : WChildren)
/-- The `Wapps` container: attribute name → nested `Wapp` class, in
declaration order. -/
inductive WChildren where
  | cnil
  | ccons (name : String) (t : WTree) (rest : WChildren)
end

mutual
/-- `Wapp._generate_endpoints_recursive` (`src/wapp/core.py` lines 66-73):
`get_endpoints(fresh=True)` on this class, then recurse into the nested
wapps. -/
def genRecT : WTree → Nat → Except String (WTree × Nat)
  | .node d c, g =>
    match get_endpoints d true g with
    | .error m => .error m
    | .ok (_, d', g') =>
      match genRecC c g' with
      | .error m => .error m
      | .ok (c', g'') => .ok (.node d' c', g'')

/-- The loop `for _, wapp in cls.get_wapps(): wapp._generate_endpoints_recursive()`. -/
def genRecC : WChildren → Nat → Except String (WChildren × Nat)
  | .cnil, g => .ok (.cnil, g)
  | .ccons nm t rest, g =>
    match genRecT t g with
    | .error m => .error m
    | .ok (t', g') =>
      match genRecC rest g' with
      | .error m => .error m
      | .ok (rest', g'') => .ok (.ccons nm t' rest', g'')
end

mutual
/-- `Wapp._bind_db_recursive` (`src/wapp/core.py` lines 75-84): set
`cls.db`, then `setattr(endpoint_cls, 'db', db_instance)` for every
endpoint of `cls.get_endpoints()`. The cached list holds the very class
objects `setattr` mutates, so the mutation is modelled by updating the
`db` field of every cache entry. Then recurse into nested wapps. -/
def bindDbT : WTree → Nat → Nat → Except String (WTree × Nat)
  | .node d c, dbi, g =>
    match get_endpoints { d with db := some dbi } false g with
    | .error m => .error m
    | .ok (r, d', g') =>
      match bindDbC c dbi g' with
      | .error m => .error m
      | .ok (c', g'') =>
        .ok (.node { d' with
          cache := some (r.map (fun p => (p.1, { p.2 with db := some dbi }))) } c', g'')

/-- The loop `for _, wapp in cls.get_wapps(): wapp._bind_db_recursive(db_instance)`. -/
def bindDbC : WChildren → Nat → Nat → Except String (WChildren × Nat)
  | .cnil, _, g => .ok (.cnil, g)
  | .ccons nm t rest, dbi, g =>
    match bindDbT t dbi g with
    | .error m => .error m
    | .ok (t', g') =>
      match bindDbC rest dbi g' with
      | .error m => .error m
      | .ok (rest', g'') => .ok (.ccons nm t' rest', g'')
end

/-- One registered route: its endpoint name (the internal identifier
Flask registers the rule under), HTTP method, and effective mounted path. -/
structure Route where
  name : String
  method : String
  path : String
deriving DecidableEq, Repr

/-- Python truthiness of an optional string attribute (`meta.pattern and
meta.method`): present and non-empty. -/
def optTruthy : Option String → Bool
  | some s => !(s == "")
  | none => false

/-- The routes one blueprint registers for its own endpoints
(`src/wapp/core.py` lines 95-107): for every resolved endpoint whose
`Meta` has a truthy pattern and method, one rule named
`f"{bp.name}_{endpoint_cls.__module__}__{endpoint_cls.__qualname__}".replace(".", "_")`
(where `bp.name` is the owning class's `__name__`). Its effective mounted
path is `(full_prefix.rstrip("/") + meta.pattern).replace("//", "/")` —
the `api_path` of line 100, which is what blueprint nesting mounts the
rule at. -/
def bpRoutes (clsName : String) (fullPfx : String)
    (eps : List (String × EndpointObj)) : List Route :=
  eps.filterMap (fun p =>
    if optTruthy p.2.pattern && optTruthy p.2.method then
      some { name := pyReplace (clsName ++ "_" ++ p.2.modName ++ "__" ++ p.2.qualName) "." "_"
           , method := p.2.method.getD ""
           , path := pyReplace (pyRstripSlash fullPfx ++ p.2.pattern.getD "") "//" "/" }
    else none)

mutual
/-- `Wapp._build_blueprint` (`src/wapp/core.py` lines 86-113):
`this_prefix = url_prefix or ""`,
`full_prefix = (parent_prefix.rstrip("/") + this_prefix).replace("//", "/")`,
register this class's endpoints, then for every nested wapp recurse with
`url_prefix = f"/{wapp_name}"` and the current `full_prefix`, merging the
nested blueprint's routes. -/
def buildBpT : WTree → Option String → String → Nat →
    Except String (List Route × WTree × Nat)
  | .node d c, urlPfx, parentPfx, g =>
    match get_endpoints d false g with
    | .error m => .error m
    | .ok (eps, d', g') =>
      match buildBpC c (pyReplace (pyRstripSlash parentPfx ++ urlPfx.getD "") "//" "/") g' with
      | .error m => .error m
      | .ok (rs, c', g'') =>
        .ok (bpRoutes d.clsName
              (pyReplace (pyRstripSlash parentPfx ++ urlPfx.getD "") "//" "/") eps ++ rs,
          .node d' c', g'')

/-- The loop over nested wapps of `_build_blueprint` (lines 108-112). -/
def buildBpC : WChildren → String → Nat → Except String (List Route × WChildren × Nat)
  | .cnil, _, g => .ok ([], .cnil, g)
  | .ccons nm t rest, fullPfx, g =>
    match buildBpT t (some ("/" ++ nm)) fullPfx g with
    | .error m => .error m
    | .ok (rs, t', g') =>
      match buildBpC rest fullPfx g' with
      | .error m => .error m
      | .ok (rs', rest', g'') => .ok (rs ++ rs', .ccons nm t' rest', g'')
end

/-- `Wapp.bind` (`src/wapp/core.py` lines 26-38): reset the root's cached
endpoints, force endpoint generation on the whole tree, bind the db
recursively, then build and register the blueprint. Returns the bound
tree, the registered route table and the next fresh id. -/
def wappBind (t : WTree) (dbi : Nat) (urlPfx : Option String) (g : Nat) :
    Except String (WTree × List Route × Nat) :=
  match t with
  | .node d c =>
    match genRecT (.node { d with cache := none } c) g with
    | .error m => .error m
    | .ok (t1, g1) =>
      match bindDbT t1 dbi g1 with
      | .error m => .error m
      | .ok (t2, g2) =>
        match buildBpT t2 urlPfx "" g2 with
        | .error m => .error m
        | .ok (rs, t3, g3) => .ok (t3, rs, g3)

/-! ## Claim C7 — nested path prefixes and route-name uniqueness -/

/-- The route table of a blueprint build (empty on error). -/
def bpRoutesOf (x : Except String (List Route × WTree × Nat)) : List Route :=
  match x with
  | .ok (rs, _, _) => rs
  | .error _ => []

/-- A leaf `Wapp` class named `Inner` owning `User` with `_user = True`. -/
def innerNode : WTree :=
  .node { clsName := "Inner", models := [("user", userModel)],
          eps := [("_user", .pyBool true)], cache := none, db := none } .cnil

/-- A root with two sibling children `a` and `b` bound to `Wapp` classes
that share the class name `Inner` (classes of the same name defined in
different modules) and own the same model. -/
def c7CexTree : WTree :=
  .node { clsName := "Root", models := [], eps := [], cache := none, db := none }
    (.ccons "a" innerNode (.ccons "b" innerNode .cnil))

/-- C7 counterexample: route names are *not* globally unique across the
tree. The internal identifier combines the owning class's plain `__name__`
(not a qualified name) with the handler's module and qualified name
(`src/wapp/core.py` line 99); two sibling nodes whose classes share a
name and own the same model register ten routes among which every
synthesized name occurs twice — `Inner_wapp_core__User_GetEndpoint`
collides across the siblings. -/
theorem c7_sibling_name_collision_counterexample :
    ((bpRoutesOf (buildBpT c7CexTree none "" 0)).map Route.name).count
        "Inner_wapp_core__User_GetEndpoint" = 2 ∧
    ¬ ((bpRoutesOf (buildBpT c7CexTree none "" 0)).map Route.name).Nodup := by
  exact ⟨by decide, by decide⟩

/-- A model class named `Item` with slug `item`. -/
def itemModel : ModelCls :=
  { clsName := "Item", wappModel := some { slug := some "item", name := "Item" } }

/-- `root.child.leaf`: a two-levels-deep nesting whose leaf owns one model. -/
def leafNode : WTree :=
  .node { clsName := "Leaf", models := [("item", itemModel)],
          eps := [("_item", .pyBool true)], cache := none, db := none } .cnil

/-- The middle node of the two-level nesting. -/
def childNode : WTree :=
  .node { clsName := "Child", models := [], eps := [], cache := none, db := none }
    (.ccons "leaf" leafNode .cnil)

/-- The root of the two-level nesting. -/
def c7Tree : WTree :=
  .node { clsName := "Root", models := [], eps := [], cache := none, db := none }
    (.ccons "child" childNode .cnil)

/-- C7 amended: building the router prefixes each child node's routes with
`"/"` followed by the child's attribute name, recursively — the two-level
nesting `root.child.leaf` mounts the leaf model's routes at
`/child/leaf/item/...`. Each route's internal identifier combines the
owning node's plain class `__name__` with the handler's module and
qualified name (dots replaced by underscores); such identifiers are
distinct here — and in any tree whose node class names are distinct — but
they are not globally unique in general, as sibling classes sharing a name
collide (see the counterexample). -/
theorem c7_nested_prefix_amended :
    bpRoutesOf (buildBpT c7Tree none "" 0) =
      [{ name := "Leaf_wapp_core__Item_GetEndpoint", method := "GET",
         path := "/child/leaf/item/<int:id>" },
       { name := "Leaf_wapp_core__Item_ListEndpoint", method := "GET",
         path := "/child/leaf/item/" },
       { name := "Leaf_wapp_core__Item_CreateEndpoint", method := "POST",
         path := "/child/leaf/item/" },
       { name := "Leaf_wapp_core__Item_UpdateEndpoint", method := "PUT",
         path := "/child/leaf/item/<int:id>" },
       { name := "Leaf_wapp_core__Item_DeleteEndpoint", method := "DELETE",
         path := "/child/leaf/item/<int:id>" }] ∧
    ((bpRoutesOf (buildBpT c7Tree none "" 0)).map Route.name).Nodup := by
  exact ⟨by decide, by decide⟩

/-! ## Claim C10 — `bind` leaves `db` set on every endpoint class -/

mutual
/-- Every node of the tree has a populated endpoint cache all of whose
endpoint classes (explicit and synthesized alike — `get_endpoints` puts
both in the cached list) carry `db = dbi`. -/
def goodT (dbi : Nat) : WTree → Bool
  | .node d c =>
    d.cache.isSome && (d.cache.getD []).all (fun p => p.2.db == some dbi) && goodC dbi c
/-- `goodT` over a `Wapps` container. -/
def goodC (dbi : Nat) : WChildren → Bool
  | .cnil => true
  | .ccons _ t rest => goodT dbi t && goodC dbi rest
end

mutual
/-- `_bind_db_recursive` overwrites `db` on every cached endpoint class of
every node it visits, whatever the caches held before. -/
theorem bindDbT_good : ∀ (t : WTree) (dbi g : Nat) (t' : WTree) (g' : Nat),
    bindDbT t dbi g = .ok (t', g') → goodT dbi t' = true
  | .node d c, dbi, g, t', g', h => by
    unfold bindDbT at h
    rcases hge : get_endpoints { d with db := some dbi } false g with m | ⟨r, d2, g2⟩
    · rw [hge] at h
      simp at h
    · rw [hge] at h
      dsimp only at h
      rcases hbc : bindDbC c dbi g2 with m | ⟨c2, g3⟩
      · rw [hbc] at h
        simp at h
      · rw [hbc] at h
        dsimp only at h
        simp only [Except.ok.injEq, Prod.mk.injEq] at h
        obtain ⟨ht, hg⟩ := h
        subst ht
        have hc := bindDbC_good c dbi g2 c2 g3 hbc
        simp [goodT, hc, List.all_eq_true]
/-- `bindDbT_good` over a `Wapps` container. -/
theorem bindDbC_good : ∀ (c : WChildren) (dbi g : Nat) (c' : WChildren) (g' : Nat),
    bindDbC c dbi g = .ok (c', g') → goodC dbi c' = true
  | .cnil, dbi, g, c', g', h => by
    unfold bindDbC at h
    simp only [Except.ok.injEq, Prod.mk.injEq] at h
    obtain ⟨hc, _⟩ := h
    subst hc
    rfl
  | .ccons nm t rest, dbi, g, c', g', h => by
    unfold bindDbC at h
    rcases hbt : bindDbT t dbi g with m | ⟨t2, g2⟩
    · rw [hbt] at h
      simp at h
    · rw [hbt] at h
      dsimp only at h
      rcases hbr : bindDbC rest dbi g2 with m | ⟨rest2, g3⟩
      · rw [hbr] at h
        simp at h
      · rw [hbr] at h
        dsimp only at h
        simp only [Except.ok.injEq, Prod.mk.injEq] at h
        obtain ⟨hc, _⟩ := h
        subst hc
        have h1 := bindDbT_good t dbi g t2 g2 hbt
        have h2 := bindDbC_good rest dbi g2 rest2 g3 hbr
        simp [goodC, h1, h2]
end

mutual
/-- `_build_blueprint` only reads the already-populated caches (non-fresh
`get_endpoints`), so it preserves the bound-db invariant. -/
theorem buildBpT_good : ∀ (t : WTree) (dbi : Nat) (up : Option String) (pp : String)
    (g : Nat) (rs : List Route) (t' : WTree) (g' : Nat),
    buildBpT t up pp g = .ok (rs, t', g') → goodT dbi t = true → goodT dbi t' = true
  | .node d c, dbi, up, pp, g, rs, t', g', h, hgood => by
    have hparts : d.cache.isSome = true ∧
        (d.cache.getD []).all (fun p => p.2.db == some dbi) = true ∧
        goodC dbi c = true := by
      have := hgood
      simp only [goodT, Bool.and_eq_true] at this
      exact ⟨this.1.1, this.1.2, this.2⟩
    have hge : get_endpoints d false g = .ok (d.cache.getD [], d, g) := by
      simp [get_endpoints, hparts.1]
    unfold buildBpT at h
    rw [hge] at h
    dsimp only at h
    rcases hbc : buildBpC c (pyReplace (pyRstripSlash pp ++ up.getD "") "//" "/") g
      with m | ⟨rs0, c2, g3⟩
    · rw [hbc] at h
      simp at h
    · rw [hbc] at h
      dsimp only at h
      simp only [Except.ok.injEq, Prod.mk.injEq] at h
      obtain ⟨_, ht, _⟩ := h
      subst ht
      have hc := buildBpC_good c dbi (pyReplace (pyRstripSlash pp ++ up.getD "") "//" "/")
        g rs0 c2 g3 hbc hparts.2.2
      simp [goodT, hparts.1, hparts.2.1, hc]
/-- `buildBpT_good` over a `Wapps` container. -/
theorem buildBpC_good : ∀ (c : WChildren) (dbi : Nat) (pfx : String) (g : Nat)
    (rs : List Route) (c' : WChildren) (g' : Nat),
    buildBpC c pfx g = .ok (rs, c', g') → goodC dbi c = true → goodC dbi c' = true
  | .cnil, dbi, pfx, g, rs, c', g', h, hgood => by
    unfold buildBpC at h
    simp only [Except.ok.injEq, Prod.mk.injEq] at h
    obtain ⟨_, hc, _⟩ := h
    subst hc
    rfl
  | .ccons nm t rest, dbi, pfx, g, rs, c', g', h, hgood => by
    have hparts : goodT dbi t = true ∧ goodC dbi rest = true := by
      simpa [goodC, Bool.and_eq_true] using hgood
    unfold buildBpC at h
    rcases hbt : buildBpT t (some ("/" ++ nm)) pfx g with m | ⟨rs1, t2, g2⟩
    · rw [hbt] at h
      simp at h
    · rw [hbt] at h
      dsimp only at h
      rcases hbr : buildBpC rest pfx g2 with m | ⟨rs2, rest2, g3⟩
      · rw [hbr] at h
        simp at h
      · rw [hbr] at h
        dsimp only at h
        simp only [Except.ok.injEq, Prod.mk.injEq] at h
        obtain ⟨_, hc, _⟩ := h
        subst hc
        have h1 := buildBpT_good t dbi (some ("/" ++ nm)) pfx g rs1 t2 g2 hbt hparts.1
        have h2 := buildBpC_good rest dbi pfx g2 rs2 rest2 g3 hbr hparts.2
        simp [goodC, h1, h2]
end

/-- C10: after a successful `Wapp.bind(app, db_instance)` on a root node,
every endpoint class in every resolved endpoint list of the composition
tree — explicitly declared and synthesized alike — has its `db` attribute
equal to `db_instance`, even though synthesized classes capture `cls.db`
at generation time: endpoint generation is forced on the whole tree before
the recursive db-binding pass overwrites `db` on every cached endpoint
class, and the blueprint build only reads the caches. -/
theorem c10_bind_sets_db (t : WTree) (dbi : Nat) (up : Option String) (g : Nat)
    (t' : WTree) (rs : List Route) (g' : Nat)
    (h : wappBind t dbi up g = .ok (t', rs, g')) :
    goodT dbi t' = true := by
  rcases t with ⟨d, c⟩
  unfold wappBind at h
  dsimp only at h
  rcases hgr : genRecT (.node { d with cache := none } c) g with m | ⟨t1, g1⟩
  · rw [hgr] at h
    simp at h
  · rw [hgr] at h
    dsimp only at h
    rcases hbd : bindDbT t1 dbi g1 with m | ⟨t2, g2⟩
    · rw [hbd] at h
      simp at h
    · rw [hbd] at h
      dsimp only at h
      rcases hbp : buildBpT t2 up "" g2 with m | ⟨rs0, t3, g3⟩
      · rw [hbp] at h
        simp at h
      · rw [hbp] at h
        dsimp only at h
        simp only [Except.ok.injEq, Prod.mk.injEq] at h
        obtain ⟨ht, _⟩ := h
        rw [← ht]
        exact buildBpT_good t2 dbi up "" g2 rs0 t3 g3 hbp
          (bindDbT_good t1 dbi g1 t2 g2 hbd)

/-- An explicit endpoint class that still carries a stale `db` (7). -/
def staleEp : EndpointObj :=
  { modName := "demo.eps", qualName := "Ping", method := some "GET",
    pattern := some "/ping", metaName := some "Ping", db := some 7, genId := none }

/-- A two-node tree mixing an explicit endpoint and CRUD directives, with
stale `db` values everywhere before binding. -/
def c10DemoTree : WTree :=
  .node { clsName := "Root", models := [("user", userModel)],
          eps := [("ping", .epCls staleEp), ("_user", .pyBool true)],
          cache := none, db := some 7 }
    (.ccons "inner"
      (.node { clsName := "Inner", models := [("item", itemModel)],
               eps := [("_item", .pyBool true)], cache := none, db := none } .cnil)
      .cnil)

/-- The bound tree of a `wappBind` outcome. -/
def bindTreeOf (x : Except String (WTree × List Route × Nat)) (dflt : WTree) : WTree :=
  match x with
  | .ok (t, _, _) => t
  | .error _ => dflt

/-- The route table of a `wappBind` outcome. -/
def bindRoutesOf (x : Except String (WTree × List Route × Nat)) : List Route :=
  match x with
  | .ok (_, rs, _) => rs
  | .error _ => []

/-- The final fresh id of a `wappBind` outcome. -/
def bindGenOf (x : Except String (WTree × List Route × Nat)) : Nat :=
  match x with
  | .ok (_, _, g) => g
  | .error _ => 0

/-- C10 witness: binding the demo tree to db instance 42 leaves every
cached endpoint class — the stale explicit `ping` included — with
`db = 42`. -/
theorem c10_bind_sets_db_witness :
    goodT 42 (bindTreeOf (wappBind c10DemoTree 42 none 0) c10DemoTree) = true := by
  have h : wappBind c10DemoTree 42 none 0 =
      .ok (bindTreeOf (wappBind c10DemoTree 42 none 0) c10DemoTree,
           bindRoutesOf (wappBind c10DemoTree 42 none 0),
           bindGenOf (wappBind c10DemoTree 42 none 0)) := rfl
  exact c10_bind_sets_db _ _ _ _ _ _ _ h
